import Mathlib

set_option maxRecDepth 8192

/- Shallow embedding of token_gen.py: a one-shot LinkedIn OAuth2
   authorization-code flow.  HTTP traffic and the on-disk token file are
   modelled by an explicit `World` oracle; the script's functions become
   pure Lean functions over it, and `authenticate` additionally returns a
   trace of its observable effects (callback receiver use, token-exchange
   use, file saves, outbound network-call count). -/

/-- JSON values as this program manipulates them: the token-exchange and
userinfo payloads are flat objects whose values are strings or integers. -/
inductive JsonVal where
  | str (s : String)
  | num (n : Int)
deriving DecidableEq

/-- A Python dict parsed from / serialized to JSON, in insertion order. -/
abbrev PyDict := List (String × JsonVal)

/-- Python str() of a JSON value, as used by the script's f-strings. -/
def pyStr : JsonVal → String
  | .str s => s
  | .num n => toString n

/-- Python dict lookup `d[k]` / `k in d`: `some v` when key `k` is present
(first occurrence; the dicts built by this program have unique keys). -/
def jget : PyDict → String → Option JsonVal
  | [], _ => none
  | (k', v) :: rest, k => if k' = k then some v else jget rest k

/-- Python dict assignment `d[k] = v`: replace the value in place when the
key exists, otherwise append the new binding. -/
def jset : PyDict → String → JsonVal → PyDict
  | [], k, v => [(k, v)]
  | (k', v') :: rest, k, v =>
      if k' = k then (k, v) :: rest else (k', v') :: jset rest k v

/-- An HTTP response as observed through `requests`: status code and parsed
JSON body. -/
structure HttpResponse where
  status : Nat
  body : PyDict
deriving DecidableEq

/-- The Python exceptions this script can raise: a `requests` transport
error, the explicit `raise Exception` on a non-200 status, and a
KeyError from a missing dict key. -/
inductive PyErr where
  | netError
  | httpError
  | keyError
deriving DecidableEq

/-- A GET request as the callback handler sees it after `urlparse` /
`parse_qs`: the path, and the query multimap in order of occurrence
(`parse_qs` drops blank values, so every listed pair has a value). -/
structure CbRequest where
  path : String
  query : List (String × String)
deriving DecidableEq

/-- First value of query parameter `k`, i.e. `query_params[k][0]`;
`none` models `k not in query_params`. -/
def qsGet (q : List (String × String)) (k : String) : Option String :=
  (q.find? (fun p => decide (p.1 = k))).map (fun p => p.2)

/-- Result of one `do_GET` call: the server's captured authorization code
after the call, the response status sent, and the response body. -/
structure HandlerResult where
  auth_code : Option String
  status : Nat
  body : String
deriving DecidableEq

/-- The static success page written on a code-bearing callback
(token_gen.py lines 53-60). -/
def successPage : String :=
  "\n                    <html>\n                    <body style=\"font-family: Arial; text-align: center; padding: 50px;\">\n                        <h1>Authorization Successful!</h1>\n                        <p>You can close this window and return to the terminal.</p>\n                    </body>\n                    </html>\n                "

/-- OAuthCallbackHandler.do_GET (token_gen.py lines 41-69).  `prior` is the
server's `auth_code` attribute before the request; the result carries its
value afterwards (it is assigned only in the code branch). -/
def do_GET (prior : Option String) (req : CbRequest) : HandlerResult :=
  if req.path = "/callback" then
    match qsGet req.query "code" with
    | some c => { auth_code := some c, status := 200, body := successPage }
    | none =>
        let e := (qsGet req.query "error").getD "Unknown error"
        { auth_code := prior, status := 400,
          body := "<html><body><h1>Error: " ++ e ++ "</h1></body></html>" }
  else
    { auth_code := prior, status := 404, body := "" }

/-- The orchestrator's wait loop `while server.auth_code is None:
server.handle_request()` (lines 123-124) run against a finite stream of
inbound requests.  `none` means the stream was exhausted with the code
still unset, i.e. the loop is still blocking. -/
def waitLoop : List CbRequest → Option String → Option String
  | reqs, acc =>
    match acc with
    | some c => some c
    | none =>
      match reqs with
      | [] => none
      | r :: rs => waitLoop rs (do_GET none r).auth_code

/-- get_authorization_code (lines 104-127): run the wait loop from an
unset code over the inbound requests. -/
def get_authorization_code (reqs : List CbRequest) : Option String :=
  waitLoop reqs none

/-- save_tokens (lines 76-80): one whole-file overwrite of the token file;
the result is the file state after the write.  Python's json round-trips
the flat dicts this program writes, so the file is modelled as holding the
dict itself. -/
def save_tokens (tokens : PyDict) : Option PyDict :=
  some tokens

/-- load_tokens (lines 83-88): the parsed record when the file exists,
`none` otherwise. -/
def load_tokens (fs : Option PyDict) : Option PyDict :=
  fs

/-- Fixed redirect URI (line 29). -/
def REDIRECT_URI : String := "http://localhost:8000/callback"

/-- Fixed scope string (line 32). -/
def SCOPES : String := "openid profile w_member_social"

/-- get_authorization_url (lines 91-101): f-string concatenation, with no
URL-encoding of the interpolated values. -/
def get_authorization_url (client_id : String) : String :=
  "https://www.linkedin.com/oauth/v2/authorization?" ++
  "response_type=code&" ++
  ("client_id=" ++ client_id ++ "&") ++
  ("redirect_uri=" ++ REDIRECT_URI ++ "&") ++
  ("scope=" ++ SCOPES ++ "&") ++
  "state=linkedin_post_state"

/-- The world the script runs against: the token file's current contents
and the provider's responses (`none` models a transport-level exception),
plus the inbound callback requests. -/
structure World where
  fs : Option PyDict
  userinfoResp : JsonVal → Option HttpResponse
  exchangeResp : String → Option HttpResponse
  callbackReqs : List CbRequest

/-- get_user_info (lines 161-180): authenticated userinfo fetch; returns
the parsed body on 200, raises otherwise. -/
def get_user_info (access_token : JsonVal) (w : World) : Except PyErr PyDict :=
  match w.userinfoResp access_token with
  | none => .error .netError
  | some r => if r.status = 200 then .ok r.body else .error .httpError

/-- exchange_code_for_token (lines 130-158): POST the code to the token
endpoint; returns the parsed body on 200, raises otherwise. -/
def exchange_code_for_token (auth_code : String) (w : World) : Except PyErr PyDict :=
  match w.exchangeResp auth_code with
  | none => .error .netError
  | some r => if r.status = 200 then .ok r.body else .error .httpError

/-- How one run of `authenticate` ends: a normal return, an uncaught
exception, or blocking forever in the callback wait loop. -/
inductive Outcome where
  | ok (access_token : JsonVal) (person_urn : String)
  | raised (e : PyErr)
  | hangs
deriving DecidableEq

/-- Observable result of one `authenticate` run: its outcome, the token
file afterwards, whether the callback receiver and the token exchange were
invoked, the records written by `save_tokens` in order, and the number of
outbound HTTP calls attempted. -/
structure AuthOutput where
  outcome : Outcome
  fs : Option PyDict
  callbackUsed : Bool
  exchangeUsed : Bool
  saves : List PyDict
  netCalls : Nat
deriving DecidableEq

/-- The cached-token probe of authenticate (lines 186-199).  `tokens and
"access_token" in tokens` holds exactly when the lookup succeeds (a dict
containing the key is nonempty).  The whole try-block — userinfo fetch and
`user_info['sub']` — either yields the early return value or is caught.
Returns (userinfo calls attempted, early-return value). -/
def probeStep (w : World) : Nat × Option (JsonVal × String) :=
  match load_tokens w.fs with
  | none => (0, none)
  | some tokens =>
    match jget tokens "access_token" with
    | none => (0, none)
    | some access_token =>
      match get_user_info access_token w with
      | .error _ => (1, none)
      | .ok user_info =>
        match jget user_info "sub" with
        | none => (1, none)
        | some sub => (1, some (access_token, "urn:li:person:" ++ pyStr sub))

/-- The fresh authentication flow of authenticate (lines 201-215): capture
a code, exchange it, save the raw token record, fetch userinfo, merge
person_urn and user_name, save again. -/
def freshFlow (w : World) (probeCalls : Nat) : AuthOutput :=
  match get_authorization_code w.callbackReqs with
  | none =>
      { outcome := .hangs, fs := w.fs, callbackUsed := true,
        exchangeUsed := false, saves := [], netCalls := probeCalls }
  | some auth_code =>
    match exchange_code_for_token auth_code w with
    | .error e =>
        { outcome := .raised e, fs := w.fs, callbackUsed := true,
          exchangeUsed := true, saves := [], netCalls := probeCalls + 1 }
    | .ok tokens =>
      let fs1 := save_tokens tokens
      match jget tokens "access_token" with
      | none =>
          { outcome := .raised .keyError, fs := fs1, callbackUsed := true,
            exchangeUsed := true, saves := [tokens], netCalls := probeCalls + 1 }
      | some access_token =>
        match get_user_info access_token w with
        | .error e =>
            { outcome := .raised e, fs := fs1, callbackUsed := true,
              exchangeUsed := true, saves := [tokens], netCalls := probeCalls + 2 }
        | .ok user_info =>
          match jget user_info "sub" with
          | none =>
              { outcome := .raised .keyError, fs := fs1, callbackUsed := true,
                exchangeUsed := true, saves := [tokens], netCalls := probeCalls + 2 }
          | some sub =>
            let person_urn := "urn:li:person:" ++ pyStr sub
            let tokens2 :=
              jset (jset tokens "person_urn" (.str person_urn)) "user_name"
                ((jget user_info "name").getD (.str "Unknown"))
            { outcome := .ok access_token person_urn, fs := save_tokens tokens2,
              callbackUsed := true, exchangeUsed := true,
              saves := [tokens, tokens2], netCalls := probeCalls + 2 }

/-- authenticate (lines 183-215): return the cached token when the probe
succeeds, otherwise run the fresh flow. -/
def authenticate (w : World) : AuthOutput :=
  match (probeStep w).2 with
  | some (access_token, person_urn) =>
      { outcome := .ok access_token person_urn, fs := w.fs,
        callbackUsed := false, exchangeUsed := false, saves := [],
        netCalls := (probeStep w).1 }
  | none => freshFlow w (probeStep w).1

/-- Python truthiness of an optional environment string: set and nonempty. -/
def truthy : Option String → Bool
  | none => false
  | some s => !(s == "")

/-- Result of the __main__ block: the configuration-error report (printed
with remediation instructions, no flow attempted), or a completed
`authenticate` run. -/
inductive MainResult where
  | configError
  | completed (a : AuthOutput)
deriving DecidableEq

/-- The __main__ block (lines 218-241): `if not CLIENT_ID or not
CLIENT_SECRET` report the configuration error, else run `authenticate`. -/
def mainFlow (client_id client_secret : Option String) (w : World) : MainResult :=
  if truthy client_id = false ∨ truthy client_secret = false then .configError
  else .completed (authenticate w)

/-- Outbound HTTP calls attempted by a `mainFlow` run: the config-error
branch only prints, so it performs none. -/
def netCallsOf : MainResult → Nat
  | .configError => 0
  | .completed a => a.netCalls

/-- Split a character list on a separator (used to read the query string
of a produced URL back as `key=value` components). -/
def splitOnC (c : Char) : List Char → List (List Char)
  | [] => [[]]
  | x :: xs =>
    if x = c then [] :: splitOnC c xs
    else
      match splitOnC c xs with
      | [] => [[x]]
      | g :: gs => (x :: g) :: gs

/-- Read one `key=value` component: key before the first `=`, value after. -/
def kvOf (l : List Char) : String × String :=
  (String.mk (l.takeWhile (fun ch => decide (ch ≠ '='))),
   String.mk ((l.dropWhile (fun ch => decide (ch ≠ '='))).drop 1))

/-- The query parameters carried by a URL: everything after the first `?`,
split on `&`, each component read as `key=value`. -/
def urlParams (url : String) : List (String × String) :=
  (splitOnC '&' ((url.data.dropWhile (fun ch => decide (ch ≠ '?'))).drop 1)).map kvOf

/-- Concrete world for the cached-token reuse scenario: the file holds a
token whose probe answers 200 with a subject id. -/
def c1World : World where
  fs := some [("access_token", JsonVal.str "cachedTok"), ("expires_in", JsonVal.num 5184000)]
  userinfoResp := fun t =>
    if t = JsonVal.str "cachedTok" then
      some { status := 200, body := [("sub", JsonVal.str "AbC123"), ("name", JsonVal.str "Jasi")] }
    else none
  exchangeResp := fun _ => none
  callbackReqs := []

/-- Concrete world for the probe-failure scenario: the cached token gets a
401, the fresh flow succeeds end to end. -/
def c2World : World where
  fs := some [("access_token", JsonVal.str "staleTok")]
  userinfoResp := fun t =>
    if t = JsonVal.str "freshTok" then
      some { status := 200, body := [("sub", JsonVal.str "S2"), ("name", JsonVal.str "Jasi")] }
    else some { status := 401, body := [] }
  exchangeResp := fun c =>
    if c = "AC2" then
      some { status := 200,
             body := [("access_token", JsonVal.str "freshTok"), ("expires_in", JsonVal.num 3600)] }
    else none
  callbackReqs := [{ path := "/callback", query := [("code", "AC2"), ("state", "linkedin_post_state")] }]

/-- Concrete world where the probe fails, the exchange succeeds, and the
userinfo fetch then fails: the fresh flow dies after its first save. -/
def c3World : World where
  fs := some [("access_token", JsonVal.str "oldTok")]
  userinfoResp := fun _ => some { status := 401, body := [] }
  exchangeResp := fun _ =>
    some { status := 200,
           body := [("access_token", JsonVal.str "newTok"), ("expires_in", JsonVal.num 5184000)] }
  callbackReqs := [{ path := "/callback", query := [("code", "AC3")] }]

/-- Concrete world with no cache where the token exchange itself fails. -/
def c3bWorld : World where
  fs := none
  userinfoResp := fun _ => none
  exchangeResp := fun _ => some { status := 500, body := [] }
  callbackReqs := [{ path := "/callback", query := [("code", "AC")] }]

/-- A callback request carrying only a code. -/
def codeReq : CbRequest where
  path := "/callback"
  query := [("code", "ABC123")]

/-- A callback request carrying only an error. -/
def errReq : CbRequest where
  path := "/callback"
  query := [("error", "access_denied")]

/-- A callback request carrying the same code plus a state parameter. -/
def codeStateReq : CbRequest where
  path := "/callback"
  query := [("code", "ABC123"), ("state", "linkedin_post_state")]

theorem waitLoop_some (l : List CbRequest) (c : String) : waitLoop l (some c) = some c := by
  rw [waitLoop]

/-- Claim C4: a GET to the callback path whose query carries a code
parameter stores exactly that code value and responds 200 with the static
success page. -/
theorem callback_code_captured (prior : Option String) (req : CbRequest) (c : String)
    (hpath : req.path = "/callback") (hcode : qsGet req.query "code" = some c) :
    do_GET prior req = { auth_code := some c, status := 200, body := successPage } := by
  simp [do_GET, hpath, hcode]

theorem callback_code_captured_witness :
    do_GET none codeReq = { auth_code := some "ABC123", status := 200, body := successPage } :=
  callback_code_captured none codeReq "ABC123" rfl rfl

/-- Claim C5: a GET to the callback path whose query carries an error
parameter and no code responds 400 with a page echoing the error, and the
captured code is unchanged. -/
theorem callback_error_responds_400 (prior : Option String) (req : CbRequest) (e : String)
    (hpath : req.path = "/callback") (hcode : qsGet req.query "code" = none)
    (herr : qsGet req.query "error" = some e) :
    do_GET prior req =
      { auth_code := prior, status := 400,
        body := "<html><body><h1>Error: " ++ e ++ "</h1></body></html>" } := by
  simp [do_GET, hpath, hcode, herr]

theorem callback_error_responds_400_witness :
    do_GET none errReq =
      { auth_code := none, status := 400,
        body := "<html><body><h1>Error: " ++ "access_denied" ++ "</h1></body></html>" } :=
  callback_error_responds_400 none errReq "access_denied" rfl rfl rfl

/-- Claim C10: the handler's behaviour on a code-bearing callback is
independent of the state parameter — two requests with the same code value
but different (or missing) state get identical treatment: same captured
code, status 200, same page. -/
theorem callback_ignores_state_param (prior : Option String) (r1 r2 : CbRequest) (c : String)
    (h1 : r1.path = "/callback") (h2 : r2.path = "/callback")
    (hc1 : qsGet r1.query "code" = some c) (hc2 : qsGet r2.query "code" = some c) :
    do_GET prior r1 = do_GET prior r2 ∧
    (do_GET prior r1).auth_code = some c ∧ (do_GET prior r1).status = 200 := by
  simp [do_GET, h1, h2, hc1, hc2]

theorem callback_ignores_state_param_witness :
    do_GET none codeStateReq = do_GET none codeReq ∧
    (do_GET none codeStateReq).auth_code = some "ABC123" ∧
    (do_GET none codeStateReq).status = 200 :=
  callback_ignores_state_param none codeStateReq codeReq "ABC123" rfl rfl rfl rfl

/-- Claim C8: saving a token record and loading it back yields the record
unchanged, and loading with no file present yields the absent value. -/
theorem token_cache_roundtrip (tokens : PyDict) :
    load_tokens (save_tokens tokens) = some tokens ∧ load_tokens none = none :=
  ⟨rfl, rfl⟩

/-- Claim C9: when the client id or client secret is absent from the
environment, the program reports the configuration error and performs
zero network calls — no step of the flow is attempted. -/
theorem missing_credentials_no_network (client_id client_secret : Option String) (w : World)
    (h : client_id = none ∨ client_secret = none) :
    mainFlow client_id client_secret w = .configError ∧
    netCallsOf (mainFlow client_id client_secret w) = 0 := by
  rcases h with h | h <;> subst h <;> simp [mainFlow, truthy, netCallsOf]

theorem missing_credentials_no_network_witness :
    mainFlow none (some "secret123") c1World = .configError ∧
    netCallsOf (mainFlow none (some "secret123") c1World) = 0 :=
  missing_credentials_no_network none (some "secret123") c1World (Or.inl rfl)

/-- Claim C6: the callback wait loop never yields a code while none has
been captured — over any finite stream of requests none of which is a
code-bearing callback (error-only callbacks included) the loop is still
blocked, and whenever it does return a code, some handled request to the
callback path carried exactly that code. -/
theorem wait_loop_blocks_until_code (reqs : List CbRequest) :
    ((∀ r ∈ reqs, ¬(r.path = "/callback" ∧ (qsGet r.query "code").isSome)) →
      get_authorization_code reqs = none) ∧
    (∀ c, get_authorization_code reqs = some c →
      ∃ r ∈ reqs, r.path = "/callback" ∧ qsGet r.query "code" = some c) := by
  induction reqs with
  | nil =>
    exact ⟨fun _ => rfl, fun c h => by cases h⟩
  | cons r rs ih =>
    constructor
    · intro hall
      have hr := hall r (List.mem_cons_self r rs)
      have hcode : (do_GET none r).auth_code = none := by
        by_cases hp : r.path = "/callback"
        · cases hq : qsGet r.query "code" with
          | none => simp [do_GET, hp, hq]
          | some c => exact absurd ⟨hp, by simp [hq]⟩ hr
        · simp [do_GET, hp]
      have hstep : get_authorization_code (r :: rs) = waitLoop rs (do_GET none r).auth_code := rfl
      rw [hstep, hcode]
      exact ih.1 fun r' hr' => hall r' (List.mem_cons_of_mem r hr')
    · intro c hc
      have hc' : waitLoop rs (do_GET none r).auth_code = some c := hc
      cases hq : (do_GET none r).auth_code with
      | some c' =>
        rw [hq, waitLoop_some] at hc'
        have hcc : c' = c := Option.some.inj hc'
        have hmatch : r.path = "/callback" ∧ qsGet r.query "code" = some c' := by
          by_cases hp : r.path = "/callback"
          · cases hqc : qsGet r.query "code" with
            | none => simp [do_GET, hp, hqc] at hq
            | some d =>
              have hd : d = c' := by simpa [do_GET, hp, hqc] using hq
              exact ⟨hp, congrArg some hd⟩
          · simp [do_GET, hp] at hq
        exact ⟨r, List.mem_cons_self r rs, hmatch.1, hcc ▸ hmatch.2⟩
      | none =>
        rw [hq] at hc'
        obtain ⟨r', hr', hm⟩ := ih.2 c hc'
        exact ⟨r', List.mem_cons_of_mem r hr', hm⟩

theorem wait_loop_blocks_until_code_witness :
    get_authorization_code [errReq] = none ∧
    ∃ r ∈ [errReq, codeReq], r.path = "/callback" ∧ qsGet r.query "code" = some "ABC123" :=
  ⟨(wait_loop_blocks_until_code [errReq]).1 (by decide),
   (wait_loop_blocks_until_code [errReq, codeReq]).2 "ABC123" rfl⟩

/-- Claim C1: with a cached record carrying an access token whose probe
succeeds and returns subject id `sub`, authenticate returns the cached
token paired with "urn:li:person:" ++ sub, without invoking the callback
receiver or the token exchange and without writing the token file. -/
theorem authenticate_reuses_valid_cached_token (w : World) (tokens user_info : PyDict)
    (access_token sub : JsonVal)
    (hfs : w.fs = some tokens)
    (htok : jget tokens "access_token" = some access_token)
    (hprobe : get_user_info access_token w = .ok user_info)
    (hsub : jget user_info "sub" = some sub) :
    authenticate w =
      { outcome := .ok access_token ("urn:li:person:" ++ pyStr sub), fs := w.fs,
        callbackUsed := false, exchangeUsed := false, saves := [], netCalls := 1 } := by
  simp [authenticate, probeStep, load_tokens, hfs, htok, hprobe, hsub]

theorem authenticate_reuses_valid_cached_token_witness :
    authenticate c1World =
      { outcome := .ok (JsonVal.str "cachedTok") ("urn:li:person:" ++ pyStr (JsonVal.str "AbC123")),
        fs := c1World.fs, callbackUsed := false, exchangeUsed := false,
        saves := [], netCalls := 1 } :=
  authenticate_reuses_valid_cached_token c1World
    [("access_token", JsonVal.str "cachedTok"), ("expires_in", JsonVal.num 5184000)]
    [("sub", JsonVal.str "AbC123"), ("name", JsonVal.str "Jasi")]
    (JsonVal.str "cachedTok") (JsonVal.str "AbC123") rfl rfl rfl rfl

/-- Claim C2: with a cached record whose probe raises, authenticate falls
through to the full fresh flow — callback capture, token exchange,
userinfo fetch, and both persists — and returns the token and URN derived
from the new exchange; the token file ends up overwritten by the final
successful save, not deleted. -/
theorem authenticate_probe_failure_runs_fresh_flow
    (w : World) (tokens new_tokens user_info : PyDict)
    (cached_token new_token sub : JsonVal) (auth_code : String) (e : PyErr)
    (hfs : w.fs = some tokens)
    (htok : jget tokens "access_token" = some cached_token)
    (hprobe : get_user_info cached_token w = .error e)
    (hcb : get_authorization_code w.callbackReqs = some auth_code)
    (hex : exchange_code_for_token auth_code w = .ok new_tokens)
    (htok2 : jget new_tokens "access_token" = some new_token)
    (hui : get_user_info new_token w = .ok user_info)
    (hsub : jget user_info "sub" = some sub) :
    authenticate w =
      { outcome := .ok new_token ("urn:li:person:" ++ pyStr sub),
        fs := save_tokens (jset (jset new_tokens "person_urn"
                (.str ("urn:li:person:" ++ pyStr sub))) "user_name"
                ((jget user_info "name").getD (.str "Unknown"))),
        callbackUsed := true, exchangeUsed := true,
        saves := [new_tokens,
          jset (jset new_tokens "person_urn" (.str ("urn:li:person:" ++ pyStr sub))) "user_name"
            ((jget user_info "name").getD (.str "Unknown"))],
        netCalls := 3 } := by
  simp [authenticate, probeStep, freshFlow, load_tokens, save_tokens,
    hfs, htok, hprobe, hcb, hex, htok2, hui, hsub]

theorem authenticate_probe_failure_runs_fresh_flow_witness :
    authenticate c2World =
      { outcome := .ok (JsonVal.str "freshTok") ("urn:li:person:" ++ pyStr (JsonVal.str "S2")),
        fs := save_tokens (jset (jset
                [("access_token", JsonVal.str "freshTok"), ("expires_in", JsonVal.num 3600)]
                "person_urn" (.str ("urn:li:person:" ++ pyStr (JsonVal.str "S2")))) "user_name"
                ((jget [("sub", JsonVal.str "S2"), ("name", JsonVal.str "Jasi")] "name").getD
                  (.str "Unknown"))),
        callbackUsed := true, exchangeUsed := true,
        saves := [[("access_token", JsonVal.str "freshTok"), ("expires_in", JsonVal.num 3600)],
          jset (jset [("access_token", JsonVal.str "freshTok"), ("expires_in", JsonVal.num 3600)]
              "person_urn" (.str ("urn:li:person:" ++ pyStr (JsonVal.str "S2")))) "user_name"
            ((jget [("sub", JsonVal.str "S2"), ("name", JsonVal.str "Jasi")] "name").getD
              (.str "Unknown"))],
        netCalls := 3 } :=
  authenticate_probe_failure_runs_fresh_flow c2World
    [("access_token", JsonVal.str "staleTok")]
    [("access_token", JsonVal.str "freshTok"), ("expires_in", JsonVal.num 3600)]
    [("sub", JsonVal.str "S2"), ("name", JsonVal.str "Jasi")]
    (JsonVal.str "staleTok") (JsonVal.str "freshTok") (JsonVal.str "S2")
    "AC2" .httpError rfl rfl rfl rfl rfl rfl rfl rfl

/-- Claim C3 counterexample: in `c3World` the fresh flow fails at the
userinfo fetch after a successful exchange, yet the token file has been
overwritten — it now holds the freshly exchanged record, which lacks
person_urn and user_name.  This refutes the claim that a failing flow
leaves the file unchanged and that a partial record is never produced. -/
theorem partial_record_persisted_counterexample :
    (authenticate c3World).fs ≠ c3World.fs ∧
    (authenticate c3World).outcome = .raised .httpError ∧
    (authenticate c3World).fs =
      some [("access_token", JsonVal.str "newTok"), ("expires_in", JsonVal.num 5184000)] ∧
    jget (((authenticate c3World).fs).getD []) "person_urn" = none ∧
    jget (((authenticate c3World).fs).getD []) "user_name" = none := by
  decide

/-- Claim C3 as amended: a fresh-flow execution that fails at or before
the token exchange leaves the token file unchanged; every write is a
single whole-file `save_tokens`, but the exchange response is persisted
immediately, so a failure after a successful exchange leaves exactly the
freshly exchanged record (person_urn and user_name not yet added) on
disk. -/
theorem token_file_after_failed_flow (w : World)
    (hnp : (probeStep w).2 = none) :
    (get_authorization_code w.callbackReqs = none → (authenticate w).fs = w.fs) ∧
    (∀ auth_code e, get_authorization_code w.callbackReqs = some auth_code →
      exchange_code_for_token auth_code w = .error e → (authenticate w).fs = w.fs) ∧
    (∀ auth_code tokens e, get_authorization_code w.callbackReqs = some auth_code →
      exchange_code_for_token auth_code w = .ok tokens →
      (authenticate w).outcome = .raised e →
      (authenticate w).fs = save_tokens tokens) := by
  have hauth : authenticate w = freshFlow w (probeStep w).1 := by
    simp [authenticate, hnp]
  refine ⟨?_, ?_, ?_⟩
  · intro hcb
    rw [hauth]
    simp [freshFlow, hcb]
  · intro ac e hcb hex
    rw [hauth]
    simp [freshFlow, hcb, hex]
  · intro ac tokens e hcb hex hout
    rw [hauth] at hout ⊢
    cases htk : jget tokens "access_token" with
    | none => simp [freshFlow, hcb, hex, htk]
    | some at2 =>
      cases hui : get_user_info at2 w with
      | error e' => simp [freshFlow, hcb, hex, htk, hui]
      | ok ui =>
        cases hsub : jget ui "sub" with
        | none => simp [freshFlow, hcb, hex, htk, hui, hsub]
        | some sub => simp [freshFlow, hcb, hex, htk, hui, hsub] at hout

theorem token_file_after_failed_flow_witness :
    (authenticate c3bWorld).fs = c3bWorld.fs :=
  (token_file_after_failed_flow c3bWorld rfl).2.1 "AC" .httpError rfl rfl

theorem strData_append (a b : String) : (a ++ b).data = a.data ++ b.data := by
  cases a
  cases b
  rfl

theorem strAppend_assoc (a b c : String) : a ++ b ++ c = a ++ (b ++ c) := by
  cases a with
  | mk da =>
    cases b with
    | mk db =>
      cases c with
      | mk dc => exact congrArg String.mk (List.append_assoc da db dc)

theorem dropWhile_append_sep (c : Char) (p rest : List Char) (hp : c ∉ p) :
    (p ++ c :: rest).dropWhile (fun ch => decide (ch ≠ c)) = c :: rest := by
  induction p with
  | nil => simp [List.dropWhile]
  | cons x xs ih =>
    have hx : x ≠ c := fun h => hp (by simp [h])
    have hxs : c ∉ xs := fun h => hp (List.mem_cons_of_mem _ h)
    rw [List.cons_append, List.dropWhile_cons_of_pos (by simpa using hx)]
    exact ih hxs

theorem takeWhile_append_sep (c : Char) (p rest : List Char) (hp : c ∉ p) :
    (p ++ c :: rest).takeWhile (fun ch => decide (ch ≠ c)) = p := by
  induction p with
  | nil => simp [List.takeWhile]
  | cons x xs ih =>
    have hx : x ≠ c := fun h => hp (by simp [h])
    have hxs : c ∉ xs := fun h => hp (List.mem_cons_of_mem _ h)
    rw [List.cons_append, List.takeWhile_cons_of_pos (by simpa using hx)]
    exact congrArg (List.cons x) (ih hxs)

theorem splitOnC_sep (c : Char) (p rest : List Char) (hp : c ∉ p) :
    splitOnC c (p ++ c :: rest) = p :: splitOnC c rest := by
  induction p with
  | nil => simp [splitOnC]
  | cons x xs ih =>
    have hx : x ≠ c := fun h => hp (by simp [h])
    have hxs : c ∉ xs := fun h => hp (List.mem_cons_of_mem _ h)
    simp [splitOnC, hx, ih hxs]

theorem splitOnC_no_sep (c : Char) (p : List Char) (hp : c ∉ p) :
    splitOnC c p = [p] := by
  induction p with
  | nil => rfl
  | cons x xs ih =>
    have hx : x ≠ c := fun h => hp (by simp [h])
    have hxs : c ∉ xs := fun h => hp (List.mem_cons_of_mem _ h)
    simp [splitOnC, hx, ih hxs]

/-- Claim C7 counterexample: the builder performs no URL-encoding, so for
the client_id "a&x=1" the produced URL does not carry exactly the five
stated query parameters — the ampersand injects an extra parameter x=1. -/
theorem auth_url_param_injection_counterexample :
    urlParams (get_authorization_url "a&x=1") ≠
      [("response_type", "code"), ("client_id", "a&x=1"),
       ("redirect_uri", REDIRECT_URI), ("scope", SCOPES),
       ("state", "linkedin_post_state")] ∧
    ("x", "1") ∈ urlParams (get_authorization_url "a&x=1") := by
  decide

/-- Claim C7 as amended: the authorization URL builder is pure and
deterministic, and for every client_id containing no ampersand the
produced URL is the provider's authorization endpoint carrying exactly the
query parameters response_type=code, client_id, redirect_uri, scope and
state (values concatenated verbatim, without URL-encoding). -/
theorem auth_url_deterministic_params (cid : String) (hamp : '&' ∉ cid.data) :
    get_authorization_url cid = get_authorization_url cid ∧
    (∃ q, get_authorization_url cid = "https://www.linkedin.com/oauth/v2/authorization?" ++ q) ∧
    urlParams (get_authorization_url cid) =
      [("response_type", "code"), ("client_id", cid),
       ("redirect_uri", REDIRECT_URI), ("scope", SCOPES),
       ("state", "linkedin_post_state")] := by
  refine ⟨rfl, ⟨"response_type=code&" ++ ("client_id=" ++ (cid ++ ("&" ++
      ("redirect_uri=" ++ (REDIRECT_URI ++ ("&" ++ ("scope=" ++ (SCOPES ++ ("&" ++
      "state=linkedin_post_state"))))))))), ?_⟩, ?_⟩
  · simp only [get_authorization_url, strAppend_assoc]
  · have e1 : ∀ X : List Char,
        "https://www.linkedin.com/oauth/v2/authorization?".data ++ X
        = "https://www.linkedin.com/oauth/v2/authorization".data ++ '?' :: X := by
      intro X
      have h : "https://www.linkedin.com/oauth/v2/authorization?".data
          = "https://www.linkedin.com/oauth/v2/authorization".data ++ ['?'] := by decide
      simp [h]
    have e2 : ∀ X : List Char, "response_type=code&".data ++ X
        = "response_type=code".data ++ '&' :: X := by
      intro X
      have h : "response_type=code&".data = "response_type=code".data ++ ['&'] := by decide
      simp [h]
    have e3 : ∀ X : List Char, "&".data ++ X = '&' :: X := by
      intro X
      have h : "&".data = ['&'] := by decide
      simp [h]
    have e4 : ∀ X : List Char, "redirect_uri=".data ++ (REDIRECT_URI.data ++ X)
        = "redirect_uri=http://localhost:8000/callback".data ++ X := by
      intro X
      rw [← List.append_assoc]
      exact congrArg (fun l => l ++ X) (by decide)
    have e5 : ∀ X : List Char, "scope=".data ++ (SCOPES.data ++ X)
        = "scope=openid profile w_member_social".data ++ X := by
      intro X
      rw [← List.append_assoc]
      exact congrArg (fun l => l ++ X) (by decide)
    have hL : (get_authorization_url cid).data
        = "https://www.linkedin.com/oauth/v2/authorization?".data ++
          ("response_type=code&".data ++ ("client_id=".data ++ (cid.data ++
           ("&".data ++ ("redirect_uri=".data ++ (REDIRECT_URI.data ++ ("&".data ++
            ("scope=".data ++ (SCOPES.data ++ ("&".data ++
             "state=linkedin_post_state".data)))))))))) := by
      simp [get_authorization_url, strData_append, List.append_assoc]
    have hd : (get_authorization_url cid).data
        = "https://www.linkedin.com/oauth/v2/authorization".data ++ '?' ::
          ("response_type=code".data ++ '&' ::
           ("client_id=".data ++ (cid.data ++ '&' ::
            ("redirect_uri=http://localhost:8000/callback".data ++ '&' ::
             ("scope=openid profile w_member_social".data ++ '&' ::
              "state=linkedin_post_state".data))))) := by
      rw [hL]
      simp only [e1, e2, e3, e4, e5]
    have hdrop : ((get_authorization_url cid).data.dropWhile
          (fun ch => decide (ch ≠ '?'))).drop 1
        = "response_type=code".data ++ '&' ::
          ("client_id=".data ++ (cid.data ++ '&' ::
           ("redirect_uri=http://localhost:8000/callback".data ++ '&' ::
            ("scope=openid profile w_member_social".data ++ '&' ::
             "state=linkedin_post_state".data)))) := by
      rw [hd, dropWhile_append_sep '?' _ _ (by decide)]
      rfl
    have hp2 : '&' ∉ "client_id=".data ++ cid.data := by
      intro h
      rcases List.mem_append.mp h with h' | h'
      · exact absurd h' (by decide)
      · exact hamp h'
    have hsplit2 : "client_id=".data ++ cid.data = "client_id".data ++ '=' :: cid.data := by
      have h : "client_id=".data = "client_id".data ++ ['='] := by decide
      simp [h]
    have hkv2 : kvOf ("client_id=".data ++ cid.data) = ("client_id", cid) := by
      rw [hsplit2]
      unfold kvOf
      rw [takeWhile_append_sep '=' _ _ (by decide), dropWhile_append_sep '=' _ _ (by decide)]
      rfl
    unfold urlParams
    rw [hdrop]
    rw [splitOnC_sep '&' _ _ (by decide : '&' ∉ "response_type=code".data)]
    rw [← List.append_assoc]
    rw [splitOnC_sep '&' _ _ hp2]
    rw [splitOnC_sep '&' _ _
      (by decide : '&' ∉ "redirect_uri=http://localhost:8000/callback".data)]
    rw [splitOnC_sep '&' _ _
      (by decide : '&' ∉ "scope=openid profile w_member_social".data)]
    rw [splitOnC_no_sep '&' _ (by decide : '&' ∉ "state=linkedin_post_state".data)]
    simp only [List.map_cons, List.map_nil]
    rw [hkv2,
      (by decide : kvOf "response_type=code".data = ("response_type", "code")),
      (by decide : kvOf "redirect_uri=http://localhost:8000/callback".data
        = ("redirect_uri", REDIRECT_URI)),
      (by decide : kvOf "scope=openid profile w_member_social".data = ("scope", SCOPES)),
      (by decide : kvOf "state=linkedin_post_state".data = ("state", "linkedin_post_state"))]

theorem auth_url_deterministic_params_witness :
    get_authorization_url "86abc123" = get_authorization_url "86abc123" ∧
    (∃ q, get_authorization_url "86abc123"
      = "https://www.linkedin.com/oauth/v2/authorization?" ++ q) ∧
    urlParams (get_authorization_url "86abc123") =
      [("response_type", "code"), ("client_id", "86abc123"),
       ("redirect_uri", REDIRECT_URI), ("scope", SCOPES),
       ("state", "linkedin_post_state")] :=
  auth_url_deterministic_params "86abc123" (by decide)
